import Mathlib

/-!
# Verification of the temporal-mcp tool facade (`main.go`)

A shallow embedding of the two MCP tool handlers of `temporal-mcp`
(`list_workflows` and `describe_workflow`) and the pure helpers they use
(`workflowStatusToString`, the status dispatch, the text rendering), together
with theorems settling the specification claims about them.

The Temporal backend client is modelled as a record of response functions;
each handler is instrumented to also report the backend requests it issued
(`trace`) and, for the list handler, the execution slice it rendered
(`executions`), so that theorems can speak about the handler's interaction
with the backend.  Protobuf timestamps are modelled as already-broken-down
UTC date-time records, and `AsTime().UTC().Format(time.RFC3339)` as the
corresponding fixed-width textual rendering.
-/

namespace TemporalMcp

/-- A value of the MCP argument map (Go `map[string]interface{}` as decoded
from JSON): a string, a number, a boolean, or null. -/
inductive ArgValue where
  | str (s : String)
  | num (n : Int)
  | boolean (b : Bool)
  | null
deriving DecidableEq

/-- The argument map of a tool call: `req.Params.Arguments`. -/
def Args : Type := String → Option ArgValue

/-- Go's two-valued type assertion `v.(string)` applied to a map lookup:
returns the string and `true` on success, and the zero value `""` with
`false` when the key is absent or the value is not a string. -/
def asString : Option ArgValue → String × Bool
  | some (ArgValue.str s) => (s, true)
  | _ => ("", false)

/-- The `WorkflowExecutionStatus` protobuf enum
(`enumspb.WorkflowExecutionStatus`).  `unspecified` stands for the enum's
zero value and any value outside the seven named states. -/
inductive WorkflowExecutionStatus where
  | unspecified
  | running
  | completed
  | failed
  | canceled
  | terminated
  | continuedAsNew
  | timedOut
deriving DecidableEq

/-- `workflowStatusToString` from `main.go`: converts a
`WorkflowExecutionStatus` enum to a readable string, with `"Unknown"` as the
default arm. -/
def workflowStatusToString (status : WorkflowExecutionStatus) : String :=
  match status with
  | .running => "Running"
  | .completed => "Completed"
  | .failed => "Failed"
  | .canceled => "Canceled"
  | .terminated => "Terminated"
  | .continuedAsNew => "ContinuedAsNew"
  | .timedOut => "TimedOut"
  | .unspecified => "Unknown"

/-- A protobuf timestamp, modelled as the broken-down UTC date-time that
`AsTime().UTC()` yields. -/
structure Timestamp where
  year : Nat
  month : Nat
  day : Nat
  hour : Nat
  minute : Nat
  second : Nat
deriving DecidableEq

/-- The zero protobuf timestamp: `(*timestamppb.Timestamp)(nil).AsTime()`
is the Unix epoch. -/
def epochTimestamp : Timestamp := ⟨1970, 1, 1, 0, 0, 0⟩

/-- Decimal rendering of a natural number (Go `%d`). -/
def natRepr (n : Nat) : String := Nat.repr n

/-- Zero-padding to two digits, as Go's `%02d` used by RFC 3339 date-time
fields. -/
def pad2 (n : Nat) : String := if n < 10 then "0" ++ natRepr n else natRepr n

/-- Zero-padding to four digits, as the year field of RFC 3339. -/
def pad4 (n : Nat) : String :=
  if n < 10 then "000" ++ natRepr n
  else if n < 100 then "00" ++ natRepr n
  else if n < 1000 then "0" ++ natRepr n
  else natRepr n

/-- `t.Format(time.RFC3339)` for a UTC time with whole seconds:
`YYYY-MM-DDTHH:MM:SSZ`. -/
def rfc3339 (t : Timestamp) : String :=
  pad4 t.year ++ "-" ++ pad2 t.month ++ "-" ++ pad2 t.day ++ "T" ++
    pad2 t.hour ++ ":" ++ pad2 t.minute ++ ":" ++ pad2 t.second ++ "Z"

/-- The `WorkflowExecution` protobuf message: workflow id plus run id. -/
structure WorkflowExecution where
  workflowId : String
  runId : String
deriving DecidableEq

/-- The `WorkflowType` protobuf message. -/
structure WorkflowType where
  name : String
deriving DecidableEq

/-- The `WorkflowExecutionInfo` protobuf message, restricted to the fields
the handlers read.  `startTime`/`closeTime` are `Option` because the
protobuf fields are nullable message pointers. -/
structure WorkflowExecutionInfo where
  execution : WorkflowExecution
  type : WorkflowType
  status : WorkflowExecutionStatus
  startTime : Option Timestamp
  closeTime : Option Timestamp
deriving DecidableEq

/-- `ListOpenWorkflowExecutionsRequest` as built by the handler; the page
token is left at its zero value (no continuation). -/
structure ListOpenWorkflowExecutionsRequest where
  nameSpace : String
  maximumPageSize : Nat
  nextPageToken : String
deriving DecidableEq

/-- The `Filters` oneof of the closed-executions request.  The handler
installs the status-filter arm, whose inner `StatusFilter` message it leaves
absent (the filtering code is commented out in the source). -/
inductive ListClosedFilters where
  | statusFilterArm (statusFilter : Option WorkflowExecutionStatus)
deriving DecidableEq

/-- `ListClosedWorkflowExecutionsRequest` as built by the handler. -/
structure ListClosedWorkflowExecutionsRequest where
  nameSpace : String
  maximumPageSize : Nat
  nextPageToken : String
  filters : Option ListClosedFilters
deriving DecidableEq

/-- One backend request observed at the client boundary. -/
inductive BackendRequest where
  | listOpen (r : ListOpenWorkflowExecutionsRequest)
  | listClosed (r : ListClosedWorkflowExecutionsRequest)
  | describe (workflowId : String) (runId : String)
deriving DecidableEq

/-- `mcp.CallToolResult`, restricted to what the handlers produce: an error
flag and one text content block. -/
structure CallToolResult where
  isError : Bool
  text : String
deriving DecidableEq

/-- `mcp.NewToolResultError`. -/
def newToolResultError (msg : String) : CallToolResult := ⟨true, msg⟩

/-- `mcp.NewToolResultText`. -/
def newToolResultText (t : String) : CallToolResult := ⟨false, t⟩

/-- The Temporal client interface the handlers call, modelled as response
functions; `Except.error` is a non-nil Go error return. For
`DescribeWorkflowExecution`, the `Option` in the success payload models the
possibly-nil `WorkflowExecutionInfo` inside the response. -/
structure TemporalClient where
  listOpenWorkflow :
    ListOpenWorkflowExecutionsRequest → Except String (List WorkflowExecutionInfo)
  listClosedWorkflow :
    ListClosedWorkflowExecutionsRequest → Except String (List WorkflowExecutionInfo)
  describeWorkflowExecution :
    String → String → Except String (Option WorkflowExecutionInfo)

/-- Result of one `list_workflows` invocation: the tool result, the
handler's second (Go `error`) return value, the backend requests issued, and
the execution slice the handler retrieved. -/
structure ListHandlerOutput where
  result : CallToolResult
  err : Option String
  trace : List BackendRequest
  executions : List WorkflowExecutionInfo
deriving DecidableEq

/-- Result of one `describe_workflow` invocation. -/
structure DescribeHandlerOutput where
  result : CallToolResult
  err : Option String
  trace : List BackendRequest
deriving DecidableEq

/-- Go `strings.ToLower`, modelled as per-character lowering. -/
def stringsToLower (s : String) : String := String.mk (s.data.map Char.toLower)

/-- The status intents of the facade: the three recognized query forms. -/
inductive StatusIntent where
  | running
  | completed
  | failed
deriving DecidableEq

/-- The status-classification step of the `list_workflows` handler: the raw
status string is lower-cased and dispatched; an unrecognized keyword is
rejected with the handler's error message, which carries the original raw
string. -/
def classifyStatus (statusVal : String) : Except String StatusIntent :=
  let statusFilter := stringsToLower statusVal
  if statusFilter = "running" then Except.ok StatusIntent.running
  else if statusFilter = "completed" then Except.ok StatusIntent.completed
  else if statusFilter = "failed" then Except.ok StatusIntent.failed
  else Except.error
    ("Unsupported status '" ++ statusVal ++ "' (use running, completed, or failed)")

/-- One line of the `list_workflows` output for a single execution, as
written by the loop body in `main.go` (the `End` field is appended only when
the close time is non-nil). -/
def renderExecutionLine (info : WorkflowExecutionInfo) : String :=
  let id := info.execution.workflowId
  let runID := info.execution.runId
  let wfType := info.type.name
  let start := rfc3339 ((info.startTime).getD epochTimestamp)
  let statusStr := workflowStatusToString info.status
  match info.closeTime with
  | some ct =>
      "- ID: " ++ id ++ " | Run: " ++ runID ++ " | Type: " ++ wfType ++
        " | Status: " ++ statusStr ++ " | Start: " ++ start ++
        " | End: " ++ rfc3339 ct ++ "\n"
  | none =>
      "- ID: " ++ id ++ " | Run: " ++ runID ++ " | Type: " ++ wfType ++
        " | Status: " ++ statusStr ++ " | Start: " ++ start ++ "\n"

/-- The non-empty branch of the `list_workflows` output: the header written
first into the builder, then the loop over the executions. -/
def buildListOutput (statusFilter : String) (executions : List WorkflowExecutionInfo) :
    String :=
  executions.foldl (fun acc info => acc ++ renderExecutionLine info)
    ("Found " ++ natRepr executions.length ++ " " ++ statusFilter ++ " workflow(s):\n")

/-- The tail of the `list_workflows` handler after the backend returned
`executions`: the empty-result message or the built list. -/
def finishListOutput (statusFilter : String) (executions : List WorkflowExecutionInfo)
    (trace : List BackendRequest) : ListHandlerOutput :=
  if executions.length = 0 then
    ⟨newToolResultText ("No " ++ statusFilter ++ " workflows found."), none,
      trace, executions⟩
  else
    ⟨newToolResultText (buildListOutput statusFilter executions), none,
      trace, executions⟩

/-- The `list_workflows` tool handler from `main.go`. -/
def listWorkflowsHandler (c : TemporalClient) (temporalNamespace : String)
    (args : Args) : ListHandlerOutput :=
  let p := asString (args "status")
  let statusVal := p.fst
  if p.snd = false ∨ statusVal = "" then
    ⟨newToolResultError "Missing or invalid 'status' parameter", none, [], []⟩
  else
    let statusFilter := stringsToLower statusVal
    if statusFilter = "running" then
      let req : ListOpenWorkflowExecutionsRequest :=
        ⟨temporalNamespace, 100, ""⟩
      match c.listOpenWorkflow req with
      | Except.error e =>
          ⟨newToolResultError ("Failed to list running workflows: " ++ e), none,
            [BackendRequest.listOpen req], []⟩
      | Except.ok executions =>
          finishListOutput statusFilter executions [BackendRequest.listOpen req]
    else if statusFilter = "completed" ∨ statusFilter = "failed" then
      let req : ListClosedWorkflowExecutionsRequest :=
        ⟨temporalNamespace, 100, "", some (ListClosedFilters.statusFilterArm none)⟩
      match c.listClosedWorkflow req with
      | Except.error e =>
          ⟨newToolResultError ("Failed to list " ++ statusFilter ++ " workflows: " ++ e),
            none, [BackendRequest.listClosed req], []⟩
      | Except.ok executions =>
          finishListOutput statusFilter executions [BackendRequest.listClosed req]
    else
      ⟨newToolResultError
        ("Unsupported status '" ++ statusVal ++ "' (use running, completed, or failed)"),
        none, [], []⟩

/-- The detail block written by the `describe_workflow` handler. -/
def renderDetail (info : WorkflowExecutionInfo) : String :=
  let id := info.execution.workflowId
  let run := info.execution.runId
  let wfType := info.type.name
  let statusStr := workflowStatusToString info.status
  let startTime := match info.startTime with
    | some t => rfc3339 t
    | none => ""
  let endTime := match info.closeTime with
    | some t => rfc3339 t
    | none => ""
  "Workflow Execution Details:\n" ++
    ("Workflow ID: " ++ id ++ "\n") ++
    ("Run ID: " ++ run ++ "\n") ++
    ("Type: " ++ wfType ++ "\n") ++
    ("Status: " ++ statusStr ++ "\n") ++
    ("Start Time: " ++ startTime ++ "\n") ++
    (if endTime ≠ "" then "End Time: " ++ endTime ++ "\n" else "")

/-- The `describe_workflow` tool handler from `main.go`. -/
def describeWorkflowHandler (c : TemporalClient) (args : Args) :
    DescribeHandlerOutput :=
  let p := asString (args "workflow_id")
  let wfID := p.fst
  if p.snd = false ∨ wfID = "" then
    ⟨newToolResultError "Missing or invalid 'workflow_id' parameter", none, []⟩
  else
    let runID := (asString (args "run_id")).fst
    match c.describeWorkflowExecution wfID runID with
    | Except.error e =>
        ⟨newToolResultError ("Failed to describe workflow: " ++ e), none,
          [BackendRequest.describe wfID runID]⟩
    | Except.ok none =>
        ⟨newToolResultError "No information available for the specified workflow", none,
          [BackendRequest.describe wfID runID]⟩
    | Except.ok (some info) =>
        ⟨newToolResultText (renderDetail info), none,
          [BackendRequest.describe wfID runID]⟩

/-- Split a character list at newline characters; the text re-parsing used
to inspect rendered output line by line.  A text built as a sequence of
newline-terminated lines splits into those lines followed by one final empty
chunk. -/
def splitLines : List Char → List (List Char)
  | [] => [[]]
  | c :: rest =>
    let r := splitLines rest
    if c = '\n' then [] :: r
    else (c :: r.headD []) :: r.tail

/-- Re-parse a rendered block for the presence of an `End Time:` line. -/
def hasEndTimeLine (s : String) : Bool :=
  (splitLines s.data).any (fun l => List.isPrefixOf "End Time: ".data l)

/-- Page-size field of a backend request, when it is a list query. -/
def requestMaxPageSize : BackendRequest → Option Nat
  | BackendRequest.listOpen r => some r.maximumPageSize
  | BackendRequest.listClosed r => some r.maximumPageSize
  | BackendRequest.describe _ _ => none

/-- Continuation-token field of a backend request, when it is a list query. -/
def requestPageToken : BackendRequest → Option String
  | BackendRequest.listOpen r => some r.nextPageToken
  | BackendRequest.listClosed r => some r.nextPageToken
  | BackendRequest.describe _ _ => none

/-- Status sub-filter carried by a backend request, when it is a closed-list
query: `none` when the request is not a closed-list query, `some f` with the
inner filter otherwise. -/
def requestStatusSubFilter : BackendRequest → Option (Option WorkflowExecutionStatus)
  | BackendRequest.listClosed r =>
    match r.filters with
    | some (ListClosedFilters.statusFilterArm f) => some f
    | none => none
  | _ => none

/-! ## Concrete fixtures used by witnesses and counterexamples -/

/-- An argument map with a single key. -/
def singleArg (k : String) (v : ArgValue) : Args :=
  fun key => if key = k then some v else none

def runningArgs : Args := singleArg "status" (ArgValue.str "running")

def completedArgs : Args := singleArg "status" (ArgValue.str "completed")

def pendingArgs : Args := singleArg "status" (ArgValue.str "pending")

def missingIdArgs : Args := singleArg "workflow_id" (ArgValue.str "missing-id")

/-- Arguments with a valid workflow id and a non-string run id. -/
def numericRunIdArgs : Args := fun key =>
  if key = "workflow_id" then some (ArgValue.str "wf-1")
  else if key = "run_id" then some (ArgValue.num 5)
  else none

/-- A backend with no executions at all. -/
def emptyClient : TemporalClient where
  listOpenWorkflow := fun _ => Except.ok []
  listClosedWorkflow := fun _ => Except.ok []
  describeWorkflowExecution := fun _ _ => Except.ok none

/-- A backend whose every call fails with an I/O error. -/
def failingClient : TemporalClient where
  listOpenWorkflow := fun _ => Except.error "connection refused"
  listClosedWorkflow := fun _ => Except.error "connection refused"
  describeWorkflowExecution := fun _ _ => Except.error "connection refused"

def ts1 : Timestamp := ⟨2024, 5, 1, 10, 0, 0⟩

def ts2 : Timestamp := ⟨2024, 5, 1, 11, 30, 0⟩

/-- A closed execution that ended in the `Failed` state. -/
def failedExecutionInfo : WorkflowExecutionInfo :=
  ⟨⟨"wf-failed-1", "run-1"⟩, ⟨"PaymentWorkflow"⟩, WorkflowExecutionStatus.failed,
    some ts1, some ts2⟩

/-- A running (open) execution without a close time. -/
def runningExecutionInfo : WorkflowExecutionInfo :=
  ⟨⟨"wf-run-1", "run-a"⟩, ⟨"OrderWorkflow"⟩, WorkflowExecutionStatus.running,
    some ts1, none⟩

/-- A second running execution, same status as `runningExecutionInfo` but a
different identifier. -/
def runningExecutionInfo2 : WorkflowExecutionInfo :=
  ⟨⟨"wf-run-2", "run-b"⟩, ⟨"OrderWorkflow"⟩, WorkflowExecutionStatus.running,
    some ts2, none⟩

/-- A backend whose closed-execution list contains a `Failed` execution; an
unfiltered closed query returns it regardless of the caller's intent. -/
def unfilteredBackend : TemporalClient where
  listOpenWorkflow := fun _ => Except.ok []
  listClosedWorkflow := fun _ => Except.ok [failedExecutionInfo]
  describeWorkflowExecution := fun _ _ => Except.ok none

/-- A detail record whose workflow id embeds a newline followed by an
`End Time:` field, although the execution has no close time. -/
def injectedDetailInfo : WorkflowExecutionInfo :=
  ⟨⟨"x\nEnd Time: 2024-05-01T11:30:00Z", "run-a"⟩, ⟨"OrderWorkflow"⟩,
    WorkflowExecutionStatus.running, some ts1, none⟩

/-! ## Helper lemmas -/

theorem digitChar_ne_newline (m : Nat) : Nat.digitChar m ≠ '\n' := by
  rcases Nat.lt_or_ge m 16 with h16 | h16
  · interval_cases m <;> decide
  · unfold Nat.digitChar
    repeat rw [if_neg (by omega)]
    decide

theorem toDigitsCore_mem (b f n : Nat) (acc : List Char) (c : Char)
    (hc : c ∈ Nat.toDigitsCore b f n acc) : c ∈ acc ∨ ∃ m, c = Nat.digitChar m := by
  induction f generalizing n acc with
  | zero =>
    simp only [Nat.toDigitsCore] at hc
    exact Or.inl hc
  | succ f ih =>
    simp only [Nat.toDigitsCore] at hc
    split at hc
    · rcases List.mem_cons.mp hc with h | h
      · exact Or.inr ⟨n % b, h⟩
      · exact Or.inl h
    · rcases ih _ _ hc with h | h
      · rcases List.mem_cons.mp h with h2 | h2
        · exact Or.inr ⟨n % b, h2⟩
        · exact Or.inl h2
      · exact Or.inr h

theorem toDigitsCore_eq_append (b f n : Nat) (acc : List Char) :
    ∃ l, Nat.toDigitsCore b f n acc = l ++ acc := by
  induction f generalizing n acc with
  | zero => exact ⟨[], by simp [Nat.toDigitsCore]⟩
  | succ f ih =>
    simp only [Nat.toDigitsCore]
    split
    · exact ⟨[Nat.digitChar (n % b)], rfl⟩
    · obtain ⟨l, hl⟩ := ih (n / b) (Nat.digitChar (n % b) :: acc)
      refine ⟨l ++ [Nat.digitChar (n % b)], ?_⟩
      rw [hl]
      simp

theorem natRepr_ne_newline (n : Nat) : '\n' ∉ (natRepr n).data := by
  intro h
  unfold natRepr Nat.repr at h
  rcases toDigitsCore_mem 10 (n + 1) n [] '\n' h with h2 | ⟨m, hm⟩
  · simp at h2
  · exact digitChar_ne_newline m hm.symm

theorem natRepr_ne_empty (n : Nat) : (natRepr n).data ≠ [] := by
  unfold natRepr Nat.repr Nat.toDigits
  simp only [Nat.toDigitsCore]
  split
  · simp [List.asString]
  · obtain ⟨l, hl⟩ := toDigitsCore_eq_append 10 n (n / 10) [Nat.digitChar (n % 10)]
    rw [hl]
    simp [List.asString]

theorem string_append_ne_empty_left (a b : String) (ha : a.data ≠ []) : a ++ b ≠ "" := by
  intro h
  have hd := congrArg String.data h
  simp only [String.data_append] at hd
  exact ha (List.append_eq_nil.mp hd).1

theorem pad4_ne_empty (n : Nat) : (pad4 n).data ≠ [] := by
  unfold pad4
  split
  · intro h
    simp only [String.data_append] at h
    exact absurd (List.append_eq_nil.mp h).1 (by decide)
  · split
    · intro h
      simp only [String.data_append] at h
      exact absurd (List.append_eq_nil.mp h).1 (by decide)
    · split
      · intro h
        simp only [String.data_append] at h
        exact absurd (List.append_eq_nil.mp h).1 (by decide)
      · exact natRepr_ne_empty n

theorem rfc3339_ne_empty (t : Timestamp) : rfc3339 t ≠ "" := by
  intro h
  have hd := congrArg String.data h
  simp only [rfc3339, String.data_append] at hd
  exact absurd (List.append_eq_nil.mp hd).2 (by decide)

theorem pad2_ne_newline (n : Nat) : '\n' ∉ (pad2 n).data := by
  unfold pad2
  split
  · simp only [String.data_append]
    intro hmem
    rcases List.mem_append.mp hmem with h | h
    · simp at h
    · exact natRepr_ne_newline n h
  · exact natRepr_ne_newline n

theorem pad4_ne_newline (n : Nat) : '\n' ∉ (pad4 n).data := by
  unfold pad4
  split
  · simp only [String.data_append]
    intro hmem
    rcases List.mem_append.mp hmem with h | h
    · simp at h
    · exact natRepr_ne_newline n h
  · split
    · simp only [String.data_append]
      intro hmem
      rcases List.mem_append.mp hmem with h | h
      · simp at h
      · exact natRepr_ne_newline n h
    · split
      · simp only [String.data_append]
        intro hmem
        rcases List.mem_append.mp hmem with h | h
        · simp at h
        · exact natRepr_ne_newline n h
      · exact natRepr_ne_newline n

theorem rfc3339_ne_newline (t : Timestamp) : '\n' ∉ (rfc3339 t).data := by
  unfold rfc3339
  simp only [String.data_append]
  intro hmem
  simp only [List.mem_append] at hmem
  casesm* _ ∨ _
  all_goals rename_i h
  all_goals first
    | exact pad4_ne_newline _ h
    | exact pad2_ne_newline _ h
    | simp at h

theorem workflowStatusToString_ne_newline (st : WorkflowExecutionStatus) :
    '\n' ∉ (workflowStatusToString st).data := by
  cases st <;> decide

theorem splitLines_append (l rest : List Char) (hl : '\n' ∉ l) :
    splitLines (l ++ '\n' :: rest) = l :: splitLines rest := by
  induction l with
  | nil => simp [splitLines]
  | cons c cs ih =>
    have hc : c ≠ '\n' := fun h => hl (h ▸ List.mem_cons_self c cs)
    have hcs : '\n' ∉ cs := fun h => hl (List.mem_cons_of_mem _ h)
    simp only [List.cons_append, splitLines]
    rw [if_neg hc]
    simp only [List.append_eq]
    rw [ih hcs]
    simp

theorem string_foldl_shift (l : List String) (a : String) :
    l.foldl (fun r s => r ++ s) a = a ++ l.foldl (fun r s => r ++ s) "" := by
  induction l generalizing a with
  | nil => simp
  | cons x xs ih =>
    simp only [List.foldl_cons]
    rw [ih (a ++ x), ih ("" ++ x)]
    simp [String.append_assoc]

theorem foldl_append_eq_join {α : Type} (f : α → String) (l : List α) (init : String) :
    l.foldl (fun acc x => acc ++ f x) init = init ++ String.join (l.map f) := by
  induction l generalizing init with
  | nil => simp [String.join]
  | cons x xs ih =>
    simp only [List.foldl_cons, List.map_cons]
    rw [ih]
    simp only [String.join, List.foldl_cons]
    rw [string_foldl_shift (xs.map f) ("" ++ f x)]
    simp [String.append_assoc]

theorem join_cons (s : String) (l : List String) :
    String.join (s :: l) = s ++ String.join l := by
  simp only [String.join, List.foldl_cons]
  rw [string_foldl_shift l ("" ++ s)]
  simp

theorem char_toNat_ofNat_valid (m : Nat) (h : m.isValidChar) :
    (Char.ofNat m).toNat = m := by
  simp [Char.ofNat, dif_pos h, Char.ofNatAux, Char.toNat, UInt32.toNat, BitVec.toNat_ofNatLt]

theorem char_toLower_idem (c : Char) : c.toLower.toLower = c.toLower := by
  unfold Char.toLower
  by_cases h : 65 ≤ c.toNat ∧ c.toNat ≤ 90
  · rw [if_pos h]
    have hv : (c.toNat + 32).isValidChar := by
      left
      omega
    rw [char_toNat_ofNat_valid _ hv]
    rw [if_neg (by omega)]
  · rw [if_neg h, if_neg h]

theorem stringsToLower_idem (s : String) :
    stringsToLower (stringsToLower s) = stringsToLower s := by
  unfold stringsToLower
  simp only [List.map_map]
  congr 1
  apply List.map_congr_left
  intro a _
  exact char_toLower_idem a

theorem splitLines_append2 (a b rest : List Char) (ha : '\n' ∉ a) (hb : '\n' ∉ b) :
    splitLines (a ++ (b ++ ('\n' :: rest))) = (a ++ b) :: splitLines rest := by
  rw [← List.append_assoc]
  refine splitLines_append (a ++ b) rest ?_
  intro h
  rcases List.mem_append.mp h with h | h
  · exact ha h
  · exact hb h

set_option maxRecDepth 16384 in
/-- The fixed-order line decomposition of the rendered detail block: header,
Workflow ID, Run ID, Type, Status, Start Time, then an End Time line exactly
when the close time is present, and a final empty chunk after the last
newline. -/
theorem renderDetail_line_structure (info : WorkflowExecutionInfo)
    (hid : '\n' ∉ info.execution.workflowId.data)
    (hrun : '\n' ∉ info.execution.runId.data)
    (htype : '\n' ∉ info.type.name.data) :
    splitLines (renderDetail info).data =
      ["Workflow Execution Details:".data,
       ("Workflow ID: " ++ info.execution.workflowId).data,
       ("Run ID: " ++ info.execution.runId).data,
       ("Type: " ++ info.type.name).data,
       ("Status: " ++ workflowStatusToString info.status).data,
       ("Start Time: " ++ (match info.startTime with
          | some t => rfc3339 t
          | none => "")).data] ++
      (match info.closeTime with
        | some t => [("End Time: " ++ rfc3339 t).data]
        | none => []) ++ [[]] := by
  obtain ⟨ss, hss, hs1⟩ : ∃ x, workflowStatusToString info.status = x ∧ '\n' ∉ x.data :=
    ⟨_, rfl, workflowStatusToString_ne_newline _⟩
  unfold renderDetail
  dsimp only
  rw [hss]
  cases hst : info.startTime with
  | some ts =>
    obtain ⟨s1, hsr1, hn1⟩ : ∃ x, rfc3339 ts = x ∧ '\n' ∉ x.data :=
      ⟨_, rfl, rfc3339_ne_newline _⟩
    dsimp only
    rw [hsr1]
    cases hct : info.closeTime with
    | some ct =>
      obtain ⟨s2, hsr2, hn2, hne2⟩ : ∃ x, rfc3339 ct = x ∧ '\n' ∉ x.data ∧ x ≠ "" :=
        ⟨_, rfl, rfc3339_ne_newline _, rfc3339_ne_empty _⟩
      dsimp only
      rw [hsr2, if_pos hne2]
      simp [splitLines, splitLines_append, hid, hrun, htype, hs1, hn1, hn2,
        String.data_append, List.append_assoc]
    | none =>
      dsimp only
      rw [if_neg (by simp)]
      simp [splitLines, splitLines_append, hid, hrun, htype, hs1, hn1,
        String.data_append, List.append_assoc]
  | none =>
    dsimp only
    cases hct : info.closeTime with
    | some ct =>
      obtain ⟨s2, hsr2, hn2, hne2⟩ : ∃ x, rfc3339 ct = x ∧ '\n' ∉ x.data ∧ x ≠ "" :=
        ⟨_, rfl, rfc3339_ne_newline _, rfc3339_ne_empty _⟩
      dsimp only
      rw [hsr2, if_pos hne2]
      simp [splitLines, splitLines_append, hid, hrun, htype, hs1, hn2,
        String.data_append, List.append_assoc]
    | none =>
      dsimp only
      rw [if_neg (by simp)]
      simp [splitLines, splitLines_append, hid, hrun, htype, hs1,
        String.data_append, List.append_assoc]

/-- Re-parsing the rendered detail block finds an `End Time:` line exactly
when the close time is present, provided the string fields embed no
newline. -/
theorem renderDetail_hasEndTime (info : WorkflowExecutionInfo)
    (hid : '\n' ∉ info.execution.workflowId.data)
    (hrun : '\n' ∉ info.execution.runId.data)
    (htype : '\n' ∉ info.type.name.data) :
    hasEndTimeLine (renderDetail info) = info.closeTime.isSome := by
  unfold hasEndTimeLine
  rw [renderDetail_line_structure info hid hrun htype]
  cases hct : info.closeTime with
  | some ct =>
    dsimp only
    simp [List.any_append, List.isPrefixOf, String.data_append]
  | none =>
    dsimp only
    simp [List.any_append, List.isPrefixOf, String.data_append]

/-! ## Dispatch lemmas: the handlers under each argument condition -/

theorem listWorkflowsHandler_eq_badarg (c : TemporalClient) (ns : String) (args : Args)
    (h : (asString (args "status")).snd = false ∨ (asString (args "status")).fst = "") :
    listWorkflowsHandler c ns args =
      ⟨newToolResultError "Missing or invalid 'status' parameter", none, [], []⟩ := by
  unfold listWorkflowsHandler
  rw [if_pos h]

theorem listWorkflowsHandler_eq_running (c : TemporalClient) (ns : String) (args : Args)
    (s : String) (hs : args "status" = some (ArgValue.str s)) (hne : s ≠ "")
    (hrun : stringsToLower s = "running") :
    listWorkflowsHandler c ns args =
      match c.listOpenWorkflow ⟨ns, 100, ""⟩ with
      | Except.error e =>
          ⟨newToolResultError ("Failed to list running workflows: " ++ e), none,
            [BackendRequest.listOpen ⟨ns, 100, ""⟩], []⟩
      | Except.ok executions =>
          finishListOutput "running" executions [BackendRequest.listOpen ⟨ns, 100, ""⟩] := by
  unfold listWorkflowsHandler
  rw [hs]
  dsimp only [asString]
  rw [if_neg (by
    intro hor
    rcases hor with h | h
    · exact absurd h (by decide)
    · exact hne h)]
  rw [hrun, if_pos rfl]

theorem listWorkflowsHandler_eq_closed (c : TemporalClient) (ns : String) (args : Args)
    (s : String) (hs : args "status" = some (ArgValue.str s)) (hne : s ≠ "")
    (hcf : stringsToLower s = "completed" ∨ stringsToLower s = "failed") :
    listWorkflowsHandler c ns args =
      match c.listClosedWorkflow
          ⟨ns, 100, "", some (ListClosedFilters.statusFilterArm none)⟩ with
      | Except.error e =>
          ⟨newToolResultError
              ("Failed to list " ++ stringsToLower s ++ " workflows: " ++ e), none,
            [BackendRequest.listClosed
              ⟨ns, 100, "", some (ListClosedFilters.statusFilterArm none)⟩], []⟩
      | Except.ok executions =>
          finishListOutput (stringsToLower s) executions
            [BackendRequest.listClosed
              ⟨ns, 100, "", some (ListClosedFilters.statusFilterArm none)⟩] := by
  have hnr : stringsToLower s ≠ "running" := by
    rcases hcf with h | h <;> rw [h] <;> decide
  unfold listWorkflowsHandler
  rw [hs]
  dsimp only [asString]
  rw [if_neg (by
    intro hor
    rcases hor with h | h
    · exact absurd h (by decide)
    · exact hne h)]
  rw [if_neg hnr, if_pos hcf]

theorem listWorkflowsHandler_eq_invalid (c : TemporalClient) (ns : String) (args : Args)
    (s : String) (hs : args "status" = some (ArgValue.str s)) (hne : s ≠ "")
    (h1 : stringsToLower s ≠ "running") (h2 : stringsToLower s ≠ "completed")
    (h3 : stringsToLower s ≠ "failed") :
    listWorkflowsHandler c ns args =
      ⟨newToolResultError
          ("Unsupported status '" ++ s ++ "' (use running, completed, or failed)"),
        none, [], []⟩ := by
  unfold listWorkflowsHandler
  rw [hs]
  dsimp only [asString]
  rw [if_neg (by
    intro hor
    rcases hor with h | h
    · exact absurd h (by decide)
    · exact hne h)]
  rw [if_neg h1, if_neg (by
    intro hor
    rcases hor with h | h
    · exact h2 h
    · exact h3 h)]

theorem describeWorkflowHandler_eq_badarg (c : TemporalClient) (args : Args)
    (h : (asString (args "workflow_id")).snd = false ∨
      (asString (args "workflow_id")).fst = "") :
    describeWorkflowHandler c args =
      ⟨newToolResultError "Missing or invalid 'workflow_id' parameter", none, []⟩ := by
  unfold describeWorkflowHandler
  rw [if_pos h]

theorem describeWorkflowHandler_eq_valid (c : TemporalClient) (args : Args)
    (w : String) (hs : args "workflow_id" = some (ArgValue.str w)) (hne : w ≠ "") :
    describeWorkflowHandler c args =
      match c.describeWorkflowExecution w ((asString (args "run_id")).fst) with
      | Except.error e =>
          ⟨newToolResultError ("Failed to describe workflow: " ++ e), none,
            [BackendRequest.describe w ((asString (args "run_id")).fst)]⟩
      | Except.ok none =>
          ⟨newToolResultError "No information available for the specified workflow", none,
            [BackendRequest.describe w ((asString (args "run_id")).fst)]⟩
      | Except.ok (some info) =>
          ⟨newToolResultText (renderDetail info), none,
            [BackendRequest.describe w ((asString (args "run_id")).fst)]⟩ := by
  unfold describeWorkflowHandler
  rw [hs]
  dsimp only [asString]
  rw [if_neg (by
    intro hor
    rcases hor with h | h
    · exact absurd h (by decide)
    · exact hne h)]

theorem listWorkflowsHandler_err_none (c : TemporalClient) (ns : String) (args : Args) :
    (listWorkflowsHandler c ns args).err = none := by
  unfold listWorkflowsHandler finishListOutput
  dsimp only
  repeat' split
  all_goals rfl

theorem describeWorkflowHandler_err_none (c : TemporalClient) (args : Args) :
    (describeWorkflowHandler c args).err = none := by
  unfold describeWorkflowHandler
  dsimp only
  repeat' split
  all_goals rfl

theorem listWorkflowsHandler_ok_or_text_ne (c : TemporalClient) (ns : String)
    (args : Args) :
    (listWorkflowsHandler c ns args).result.isError = false ∨
    (listWorkflowsHandler c ns args).result.text ≠ "" := by
  unfold listWorkflowsHandler finishListOutput
  dsimp only
  repeat' split
  all_goals first
    | exact Or.inl rfl
    | (refine Or.inr ?_
       simp only [newToolResultError]
       first
         | decide
         | exact string_append_ne_empty_left _ _ (by decide)
         | exact string_append_ne_empty_left _ _ (by
             intro hnil
             simp only [String.data_append] at hnil
             exact absurd (List.append_eq_nil.mp hnil).1 (by decide))
         | exact string_append_ne_empty_left _ _ (by
             intro hnil
             simp only [String.data_append] at hnil
             exact absurd (List.append_eq_nil.mp (List.append_eq_nil.mp hnil).1).1
               (by decide)))

theorem describeWorkflowHandler_ok_or_text_ne (c : TemporalClient) (args : Args) :
    (describeWorkflowHandler c args).result.isError = false ∨
    (describeWorkflowHandler c args).result.text ≠ "" := by
  unfold describeWorkflowHandler
  dsimp only
  repeat' split
  all_goals first
    | exact Or.inl rfl
    | (refine Or.inr ?_
       simp only [newToolResultError]
       first
         | decide
         | exact string_append_ne_empty_left _ _ (by decide))

/-! ## Claim theorems -/

/-- C4: the status classifier yields the same classification result (intent,
or rejection) for a raw string as for its lower-cased form; in particular the
letter-case variants `"RUNNING"` and `"Failed"` classify to the same intent
as their lower-case forms. -/
theorem classifyStatus_toLower_invariant (s : String) :
    (classifyStatus s).toOption = (classifyStatus (stringsToLower s)).toOption ∧
    classifyStatus "RUNNING" = classifyStatus "running" ∧
    classifyStatus "Failed" = classifyStatus "failed" := by
  refine ⟨?_, rfl, rfl⟩
  unfold classifyStatus
  rw [stringsToLower_idem]
  dsimp only
  split_ifs <;> rfl

/-- C2 counterexample: with a backend returning zero open executions,
`list_workflows(status="running")` returns the text
`"No running workflows found."` with no trailing newline, so the claimed
exact text `"No running workflows found.\n"` is not returned. -/
theorem listWorkflows_empty_running_no_trailing_newline :
    (listWorkflowsHandler emptyClient "default" runningArgs).result.text =
      "No running workflows found." ∧
    (listWorkflowsHandler emptyClient "default" runningArgs).result.text ≠
      "No running workflows found.\n" := by
  exact ⟨rfl, by decide⟩

/-- C2 (amended): `list_workflows(status="running")` against a backend with
zero open executions returns the successful text result whose text is exactly
`"No running workflows found."` (no trailing newline). -/
theorem listWorkflows_empty_running_message (c : TemporalClient) (ns : String)
    (args : Args) (hs : args "status" = some (ArgValue.str "running"))
    (hb : c.listOpenWorkflow ⟨ns, 100, ""⟩ = Except.ok []) :
    (listWorkflowsHandler c ns args).result =
      newToolResultText "No running workflows found." := by
  rw [listWorkflowsHandler_eq_running c ns args "running" hs (by decide) (by decide), hb]
  rfl

/-- C2 witness: the amended claim at a concrete empty backend. -/
theorem listWorkflows_empty_running_message_witness :
    (listWorkflowsHandler emptyClient "default" runningArgs).result =
      newToolResultText "No running workflows found." :=
  listWorkflows_empty_running_message emptyClient "default" runningArgs rfl rfl

/-- C3: whenever the status argument is absent, not a string, empty, or not a
case-insensitive match of running/completed/failed, `list_workflows` returns
an error result. -/
theorem listWorkflows_unrecognized_status_errors (c : TemporalClient) (ns : String)
    (args : Args)
    (h : (asString (args "status")).snd = false ∨ (asString (args "status")).fst = "" ∨
      (stringsToLower (asString (args "status")).fst ≠ "running" ∧
       stringsToLower (asString (args "status")).fst ≠ "completed" ∧
       stringsToLower (asString (args "status")).fst ≠ "failed")) :
    (listWorkflowsHandler c ns args).result.isError = true := by
  rcases h with h | h | ⟨h1, h2, h3⟩
  · rw [listWorkflowsHandler_eq_badarg c ns args (Or.inl h)]
    rfl
  · rw [listWorkflowsHandler_eq_badarg c ns args (Or.inr h)]
    rfl
  · cases harg : args "status" with
    | none =>
      rw [listWorkflowsHandler_eq_badarg c ns args (by rw [harg]; exact Or.inl rfl)]
      rfl
    | some v =>
      cases v with
      | str s =>
        by_cases hse : s = ""
        · rw [listWorkflowsHandler_eq_badarg c ns args
            (by rw [harg, hse]; exact Or.inr rfl)]
          rfl
        · have hfst : (asString (args "status")).fst = s := by
            rw [harg]
            rfl
          rw [hfst] at h1 h2 h3
          rw [listWorkflowsHandler_eq_invalid c ns args s harg hse h1 h2 h3]
          rfl
      | num n =>
        rw [listWorkflowsHandler_eq_badarg c ns args (by rw [harg]; exact Or.inl rfl)]
        rfl
      | boolean b =>
        rw [listWorkflowsHandler_eq_badarg c ns args (by rw [harg]; exact Or.inl rfl)]
        rfl
      | null =>
        rw [listWorkflowsHandler_eq_badarg c ns args (by rw [harg]; exact Or.inl rfl)]
        rfl

/-- C3 witness: the unrecognized keyword `"pending"` yields an error result. -/
theorem listWorkflows_unrecognized_status_errors_witness :
    (listWorkflowsHandler emptyClient "default" pendingArgs).result.isError = true :=
  listWorkflows_unrecognized_status_errors emptyClient "default" pendingArgs
    (Or.inr (Or.inr ⟨by decide, by decide, by decide⟩))

/-- C6: `describe_workflow` with a valid workflow id returns a caller-visible
error result (with a non-empty message, not a crash and not an empty
success) whenever the backend reports no execution, either as an error or as
a success response with an absent detail payload. -/
theorem describeWorkflow_not_found_is_error (c : TemporalClient) (args : Args)
    (w : String) (hs : args "workflow_id" = some (ArgValue.str w)) (hne : w ≠ "")
    (hnf : c.describeWorkflowExecution w ((asString (args "run_id")).fst) =
        Except.ok none ∨
      ∃ e, c.describeWorkflowExecution w ((asString (args "run_id")).fst) =
        Except.error e) :
    (describeWorkflowHandler c args).result.isError = true ∧
    (describeWorkflowHandler c args).result.text ≠ "" := by
  rw [describeWorkflowHandler_eq_valid c args w hs hne]
  rcases hnf with h | ⟨e, h⟩ <;> rw [h] <;> refine ⟨rfl, ?_⟩
  · show ("No information available for the specified workflow" : String) ≠ ""
    decide
  · exact string_append_ne_empty_left "Failed to describe workflow: " e (by decide)

/-- C6 witness: `describe_workflow(workflow_id="missing-id")` against a
backend whose success response carries no execution info. -/
theorem describeWorkflow_not_found_is_error_witness :
    (describeWorkflowHandler emptyClient missingIdArgs).result.isError = true ∧
    (describeWorkflowHandler emptyClient missingIdArgs).result.text ≠ "" :=
  describeWorkflow_not_found_is_error emptyClient missingIdArgs "missing-id" rfl
    (by decide) (Or.inl rfl)

/-- C10: a `run_id` argument that is present but not a string is silently
treated as absent: the handler behaves exactly as if `run_id` were omitted,
and the run id passed to the backend lookup is the empty string (latest
run). -/
theorem describeWorkflow_nonstring_runId_ignored (c : TemporalClient) (args : Args)
    (v : ArgValue) (hv : args "run_id" = some v) (hns : ∀ s, v ≠ ArgValue.str s) :
    describeWorkflowHandler c args =
      describeWorkflowHandler c (fun k => if k = "run_id" then none else args k) ∧
    (asString (args "run_id")).fst = "" := by
  have hstr : asString (args "run_id") = ("", false) := by
    rw [hv]
    cases v with
    | str s => exact absurd rfl (hns s)
    | num n => rfl
    | boolean b => rfl
    | null => rfl
  refine ⟨?_, by rw [hstr]⟩
  unfold describeWorkflowHandler
  simp only []
  rw [if_pos True.intro, hstr,
    if_neg (show ¬("workflow_id" = "run_id") from by decide)]
  rfl

/-- C10 witness: a numeric `run_id` is ignored and the lookup uses the empty
run id. -/
theorem describeWorkflow_nonstring_runId_ignored_witness :
    describeWorkflowHandler emptyClient numericRunIdArgs =
      describeWorkflowHandler emptyClient
        (fun k => if k = "run_id" then none else numericRunIdArgs k) ∧
    (asString (numericRunIdArgs "run_id")).fst = "" :=
  describeWorkflow_nonstring_runId_ignored emptyClient numericRunIdArgs (ArgValue.num 5)
    rfl (fun _ h => ArgValue.noConfusion h)

/-- C5: every internal failure of the two tool handlers is converted into a
non-fatal caller-visible error result: the handlers' Go error return value is
always nil (`none`), an error result always carries a non-empty
human-readable message, and the backend-failure branches of both handlers
produce error results. -/
theorem handlers_failures_nonfatal_caller_visible (c : TemporalClient) (ns : String)
    (args : Args) :
    (listWorkflowsHandler c ns args).err = none ∧
    (describeWorkflowHandler c args).err = none ∧
    ((listWorkflowsHandler c ns args).result.isError = true →
      (listWorkflowsHandler c ns args).result.text ≠ "") ∧
    ((describeWorkflowHandler c args).result.isError = true →
      (describeWorkflowHandler c args).result.text ≠ "") ∧
    (∀ s e, args "status" = some (ArgValue.str s) → s ≠ "" →
      stringsToLower s = "running" →
      c.listOpenWorkflow ⟨ns, 100, ""⟩ = Except.error e →
      (listWorkflowsHandler c ns args).result.isError = true) ∧
    (∀ s e, args "status" = some (ArgValue.str s) → s ≠ "" →
      (stringsToLower s = "completed" ∨ stringsToLower s = "failed") →
      c.listClosedWorkflow ⟨ns, 100, "", some (ListClosedFilters.statusFilterArm none)⟩ =
        Except.error e →
      (listWorkflowsHandler c ns args).result.isError = true) ∧
    (∀ w e, args "workflow_id" = some (ArgValue.str w) → w ≠ "" →
      c.describeWorkflowExecution w ((asString (args "run_id")).fst) = Except.error e →
      (describeWorkflowHandler c args).result.isError = true) := by
  refine ⟨listWorkflowsHandler_err_none c ns args,
    describeWorkflowHandler_err_none c args, ?_, ?_, ?_, ?_, ?_⟩
  · intro h
    rcases listWorkflowsHandler_ok_or_text_ne c ns args with hf | ht
    · rw [hf] at h
      exact absurd h (by decide)
    · exact ht
  · intro h
    rcases describeWorkflowHandler_ok_or_text_ne c args with hf | ht
    · rw [hf] at h
      exact absurd h (by decide)
    · exact ht
  · intro s e hs hne hrun hb
    rw [listWorkflowsHandler_eq_running c ns args s hs hne hrun, hb]
    rfl
  · intro s e hs hne hcf hb
    rw [listWorkflowsHandler_eq_closed c ns args s hs hne hcf, hb]
    rfl
  · intro w e hs hne hb
    rw [describeWorkflowHandler_eq_valid c args w hs hne, hb]
    rfl

/-- C5 witness: at a backend whose calls fail, both handlers produce error
results (and, per the theorem, no fatal error). -/
theorem handlers_failures_nonfatal_caller_visible_witness :
    (listWorkflowsHandler failingClient "default" runningArgs).result.isError = true ∧
    (describeWorkflowHandler failingClient missingIdArgs).result.isError = true :=
  ⟨(handlers_failures_nonfatal_caller_visible failingClient "default"
      runningArgs).2.2.2.2.1 "running" "connection refused" rfl (by decide)
      (by decide) rfl,
   (handlers_failures_nonfatal_caller_visible failingClient "default"
      missingIdArgs).2.2.2.2.2.2 "missing-id" "connection refused" rfl (by decide) rfl⟩

/-- C9: with a recognized status keyword, `list_workflows` issues exactly one
backend list query, carrying maximum page size 100 and an empty
continuation token, and — provided the backend honors the page-size bound —
the retrieved execution sequence never holds more than 100 summaries. -/
theorem listWorkflows_single_bounded_query (c : TemporalClient) (ns : String)
    (args : Args) (s : String)
    (hs : args "status" = some (ArgValue.str s)) (hne : s ≠ "")
    (hrec : stringsToLower s = "running" ∨ stringsToLower s = "completed" ∨
      stringsToLower s = "failed")
    (hopen : ∀ r l, c.listOpenWorkflow r = Except.ok l → l.length ≤ r.maximumPageSize)
    (hclosed : ∀ r l, c.listClosedWorkflow r = Except.ok l →
      l.length ≤ r.maximumPageSize) :
    (∃ r, (listWorkflowsHandler c ns args).trace = [r] ∧
      requestMaxPageSize r = some 100 ∧ requestPageToken r = some "") ∧
    (listWorkflowsHandler c ns args).executions.length ≤ 100 := by
  rcases hrec with hrun | hcf
  · rw [listWorkflowsHandler_eq_running c ns args s hs hne hrun]
    cases hb : c.listOpenWorkflow ⟨ns, 100, ""⟩ with
    | error e =>
      dsimp only
      exact ⟨⟨BackendRequest.listOpen ⟨ns, 100, ""⟩, rfl, rfl, rfl⟩, Nat.zero_le 100⟩
    | ok l =>
      dsimp only
      refine ⟨⟨BackendRequest.listOpen ⟨ns, 100, ""⟩, ?_, rfl, rfl⟩, ?_⟩
      · unfold finishListOutput
        split <;> rfl
      · have hlen := hopen ⟨ns, 100, ""⟩ l hb
        unfold finishListOutput
        split <;> exact hlen
  · rw [listWorkflowsHandler_eq_closed c ns args s hs hne hcf]
    cases hb : c.listClosedWorkflow
        ⟨ns, 100, "", some (ListClosedFilters.statusFilterArm none)⟩ with
    | error e =>
      dsimp only
      exact ⟨⟨BackendRequest.listClosed
        ⟨ns, 100, "", some (ListClosedFilters.statusFilterArm none)⟩, rfl, rfl, rfl⟩,
        Nat.zero_le 100⟩
    | ok l =>
      dsimp only
      refine ⟨⟨BackendRequest.listClosed
        ⟨ns, 100, "", some (ListClosedFilters.statusFilterArm none)⟩, ?_, rfl, rfl⟩, ?_⟩
      · unfold finishListOutput
        split <;> rfl
      · have hlen := hclosed ⟨ns, 100, "", some (ListClosedFilters.statusFilterArm none)⟩
          l hb
        unfold finishListOutput
        split <;> exact hlen

/-- C9 witness: one bounded open-executions query at a concrete backend. -/
theorem listWorkflows_single_bounded_query_witness :
    (∃ r, (listWorkflowsHandler emptyClient "default" runningArgs).trace = [r] ∧
      requestMaxPageSize r = some 100 ∧ requestPageToken r = some "") ∧
    (listWorkflowsHandler emptyClient "default" runningArgs).executions.length ≤ 100 :=
  listWorkflows_single_bounded_query emptyClient "default" runningArgs "running" rfl
    (by decide) (Or.inl (by decide))
    (by
      intro r l h
      cases h
      exact Nat.zero_le _)
    (by
      intro r l h
      cases h
      exact Nat.zero_le _)

/-- C1: the `list_workflows` handler issues the closed-executions query with
an absent status sub-filter (the filter is left unset in the source), and a
backend whose unfiltered closed list contains a `Failed` execution makes the
`completed` invocation return that `Failed` execution in a successful
result — contradicting the claim that the status sub-filter is applied. -/
theorem listWorkflows_completed_query_unfiltered :
    (listWorkflowsHandler unfilteredBackend "default" completedArgs).trace =
      [BackendRequest.listClosed
        ⟨"default", 100, "", some (ListClosedFilters.statusFilterArm none)⟩] ∧
    requestStatusSubFilter
      (BackendRequest.listClosed
        ⟨"default", 100, "", some (ListClosedFilters.statusFilterArm none)⟩) =
      some none ∧
    (listWorkflowsHandler unfilteredBackend "default" completedArgs).result.isError =
      false ∧
    (listWorkflowsHandler unfilteredBackend "default" completedArgs).executions =
      [failedExecutionInfo] ∧
    failedExecutionInfo.status = WorkflowExecutionStatus.failed :=
  ⟨rfl, rfl, rfl, rfl, rfl⟩

/-- C8: for every non-empty sequence of execution summaries, the list
renderer produces the header stating the count and status label, followed by
exactly one newline-terminated line per summary, in the input order, each
listing identifier, run id, type, status, start time, and an end-time field
exactly when the close time is present. -/
theorem renderList_header_and_per_summary_lines (statusFilter : String)
    (l : List WorkflowExecutionInfo) (hne : l ≠ []) :
    buildListOutput statusFilter l =
      "Found " ++ natRepr l.length ++ " " ++ statusFilter ++ " workflow(s):\n" ++
        String.join (l.map (fun info =>
          "- ID: " ++ info.execution.workflowId ++ " | Run: " ++
            info.execution.runId ++ " | Type: " ++ info.type.name ++ " | Status: " ++
            workflowStatusToString info.status ++ " | Start: " ++
            rfc3339 (info.startTime.getD epochTimestamp) ++
            (match info.closeTime with
              | some ct => " | End: " ++ rfc3339 ct
              | none => "") ++ "\n")) := by
  unfold buildListOutput
  rw [foldl_append_eq_join]
  congr 1
  congr 1
  apply List.map_congr_left
  intro info _
  unfold renderExecutionLine
  dsimp only
  cases info.closeTime with
  | some ct => simp [String.append_assoc]
  | none => simp [String.append_assoc]

set_option maxRecDepth 8192 in
/-- C8 witness: two summaries with the same status and different
identifiers render in input order. -/
theorem renderList_header_and_per_summary_lines_witness :
    buildListOutput "running" [runningExecutionInfo, runningExecutionInfo2] =
      "Found 2 running workflow(s):\n- ID: wf-run-1 | Run: run-a | Type: OrderWorkflow | Status: Running | Start: 2024-05-01T10:00:00Z\n- ID: wf-run-2 | Run: run-b | Type: OrderWorkflow | Status: Running | Start: 2024-05-01T11:30:00Z\n" := by
  rw [renderList_header_and_per_summary_lines "running"
    [runningExecutionInfo, runningExecutionInfo2] (by decide)]
  decide

/-- C7 counterexample: a detail record whose workflow id embeds a newline
followed by `"End Time: ..."` has no close time, yet re-parsing the rendered
text finds an `End Time` line — so rendering-then-re-parsing does not
recover the close-time presence for every input, as the claim states. -/
theorem renderDetail_endTime_reparse_counterexample :
    injectedDetailInfo.closeTime = none ∧
    hasEndTimeLine (renderDetail injectedDetailInfo) = true := by
  exact ⟨rfl, by decide⟩

/-- C7 (amended): for every detail record whose workflow id, run id and type
name contain no newline character, the rendered block consists of the fixed
lines header, Workflow ID, Run ID, Type, Status, Start Time in that order,
with an `End Time` line exactly when the close time is present (and carrying
the non-empty rendered close time), so that re-parsing the text for an
`End Time` line recovers the close-time presence exactly. -/
theorem renderDetail_fixed_lines_endTime_iff (info : WorkflowExecutionInfo)
    (hid : '\n' ∉ info.execution.workflowId.data)
    (hrun : '\n' ∉ info.execution.runId.data)
    (htype : '\n' ∉ info.type.name.data) :
    splitLines (renderDetail info).data =
      ["Workflow Execution Details:".data,
       ("Workflow ID: " ++ info.execution.workflowId).data,
       ("Run ID: " ++ info.execution.runId).data,
       ("Type: " ++ info.type.name).data,
       ("Status: " ++ workflowStatusToString info.status).data,
       ("Start Time: " ++ (match info.startTime with
          | some t => rfc3339 t
          | none => "")).data] ++
      (match info.closeTime with
        | some t => [("End Time: " ++ rfc3339 t).data]
        | none => []) ++ [[]] ∧
    hasEndTimeLine (renderDetail info) = info.closeTime.isSome ∧
    (∀ t, info.closeTime = some t → rfc3339 t ≠ "") :=
  ⟨renderDetail_line_structure info hid hrun htype,
   renderDetail_hasEndTime info hid hrun htype,
   fun t _ => rfc3339_ne_empty t⟩

/-- C7 witness: the amended claim at a closed execution with a close time
and at a running execution without one. -/
theorem renderDetail_fixed_lines_endTime_iff_witness :
    hasEndTimeLine (renderDetail failedExecutionInfo) =
      failedExecutionInfo.closeTime.isSome ∧
    hasEndTimeLine (renderDetail runningExecutionInfo) =
      runningExecutionInfo.closeTime.isSome :=
  ⟨(renderDetail_fixed_lines_endTime_iff failedExecutionInfo (by decide) (by decide)
      (by decide)).2.1,
   (renderDetail_fixed_lines_endTime_iff runningExecutionInfo (by decide) (by decide)
      (by decide)).2.1⟩

end TemporalMcp
